import Mathlib

set_option maxRecDepth 2048

/-!
Shallow embedding of the swsurface Windows backend
(`src/windows.rs`, `SurfaceImpl`) together with the helper components it
uses (`Align`, `Buffer`, `ImageInfo`, `Config`, `Format`).  The helper
components live in sibling modules of the crate that are not among the
sources shown, so they are modelled from the specification; everything in
`SurfaceImpl` is translated statement by statement from `windows.rs`.

Machine integers: `usize` is 64-bit (the Windows target of this backend),
`u32`/`c_int` are 32-bit.  Overflow is modelled explicitly; panics
(`assert!`, `expect`) and `RefCell` borrow failures surface as explicit
failure results.
-/

namespace Swsurface

/-- Modulus of `usize` on the 64-bit target. -/
def USIZE : Nat := 2 ^ 64

/-- Value of `i32::max_value()`: the signed 32-bit ceiling used by the extent and
stride-in-pixels checks. -/
def I32_MAX : Nat := 2147483647

/-- Rust `usize::checked_mul`: `none` exactly when the product overflows. -/
def checked_mul (a b : Nat) : Option Nat :=
  if a * b < USIZE then some (a * b) else none

/-- Interpret the low 32 bits of a value as a signed 32-bit integer
(the semantics of Rust `as i32` / `as c_int` casts). -/
def i32_wrap (x : Int) : Int :=
  if x % (2 ^ 32) < 2 ^ 31 then x % (2 ^ 32) else x % (2 ^ 32) - 2 ^ 32

/-- Cast `x as i32` for an unsigned `x`. -/
def as_i32 (x : Nat) : Int := i32_wrap x

/-- Modelled from the spec: `Align` (module `align`, not among the shown
sources) wraps a byte alignment; `Align.new` only accepts a positive power
of two, so every constructed value is positive. -/
structure Align where
  value : Nat
deriving DecidableEq

/-- Modelled from the spec: `Align::new(value)` fails if `value` is 0 or
not a power of two (the powers of two expressible in 64-bit `usize` are
`2^0 .. 2^63`). -/
def Align.new (v : Nat) : Option Align :=
  if ∃ k < 64, v = 2 ^ k then some ⟨v⟩ else none

/-- Modelled from the spec: `Align::align_up(x)` returns the smallest
multiple of the alignment that is `≥ x`, and `none` when the underlying
`usize` arithmetic (`x + value - 1`) overflows. -/
def Align.align_up (a : Align) (x : Nat) : Option Nat :=
  if x + a.value - 1 < USIZE then some ((x + a.value - 1) / a.value * a.value)
  else none

/-- Modelled from the spec: the pixel format tag.  `Argb8888` is the one
format this backend presents; `Xrgb8888` stands for a format not (yet)
listed by `supported_formats`. -/
inductive Format where
  | Argb8888
  | Xrgb8888
deriving DecidableEq

/-- Struct `ImageInfo { extent: [u32; 2], stride: usize, format: Format }`;
the extent pair is (width, height). -/
structure ImageInfo where
  extent : Nat × Nat
  stride : Nat
  format : Format
deriving DecidableEq

/-- Modelled from the spec: `ImageInfo`'s zero/default value used at
surface construction. -/
def ImageInfo.default : ImageInfo :=
  { extent := (0, 0), stride := 0, format := Format.Argb8888 }

/-- Modelled from the spec: `Buffer` (module `buffer`, not among the shown
sources) owns a resizable byte region; only its size is observable here
(contents after a resize are unspecified by the spec). -/
structure Buffer where
  size : Nat
deriving DecidableEq

/-- Modelled from the spec: `Buffer::from_size_align` fails if the
alignment is invalid. -/
def Buffer.from_size_align (size align : Nat) : Option Buffer :=
  match Align.new align with
  | some _ => some ⟨size⟩
  | none => none

/-- Modelled from the spec: `Buffer::resize` grows/shrinks the owned
region to `new_size` bytes. -/
def Buffer.resize (_b : Buffer) (new_size : Nat) : Buffer := ⟨new_size⟩

/-- Struct `Config`: caller-supplied buffer alignment and scanline alignment. -/
structure Config where
  align : Nat
  scanline_align : Nat

/-- State of `SurfaceImpl`: the owned buffer (a `RefCell<Buffer>`), the
current `ImageInfo` (a `Cell`), the fixed scanline alignment, and the
`RefCell`'s dynamic borrow flag (`locked` is true while a `lock_image`
handle is alive).  The `HWND` carries no observable state and is omitted. -/
structure SurfaceImpl where
  image : Buffer
  image_info : ImageInfo
  scanline_align : Align
  locked : Bool
deriving DecidableEq

/-- Constructor `SurfaceImpl::new`: a 1-byte placeholder buffer aligned per
`config.align`, a default `ImageInfo`, the scanline alignment fixed from
`config.scanline_align`; `none` when either `unwrap` would panic. -/
def SurfaceImpl.new (config : Config) : Option SurfaceImpl :=
  match Buffer.from_size_align 1 config.align, Align.new config.scanline_align with
  | some buf, some sa =>
      some { image := buf, image_info := ImageInfo.default,
             scanline_align := sa, locked := false }
  | _, _ => none

/-- Result of `update_surface`: `panicked s` means the call aborted by
panic with the surface left in state `s` (the state accumulated at the
panic point); `ok s` is a normal return. -/
inductive UpdateResult where
  | panicked (state : SurfaceImpl)
  | ok (state : SurfaceImpl)
deriving DecidableEq

/-- The surface state carried by either outcome. -/
def UpdateResult.state : UpdateResult → SurfaceImpl
  | .panicked s => s
  | .ok s => s

/-- Translation of `SurfaceImpl::update_surface(extent, format)`, done statement by
statement from `windows.rs` lines 37-68: the four `assert!`s on the
extent, `stride = extent[0].checked_mul(4).and_then(align_up).expect(..)`,
`size = stride.checked_mul(extent[1]).expect(..)`, the
`(stride / 4).try_into::<c_int>().expect(..)` check, then
`image.borrow_mut()` (panics while a lock handle is alive), the resize and
the `image_info.set`. -/
def SurfaceImpl.update_surface (s : SurfaceImpl) (extent : Nat × Nat)
    (format : Format) : UpdateResult :=
  if extent.1 = 0 then .panicked s
  else if extent.2 = 0 then .panicked s
  else if ¬ extent.1 ≤ I32_MAX then .panicked s
  else if ¬ extent.2 ≤ I32_MAX then .panicked s
  else
    match checked_mul extent.1 4 with
    | none => .panicked s
    | some x =>
      match s.scanline_align.align_up x with
      | none => .panicked s
      | some stride =>
        match checked_mul stride extent.2 with
        | none => .panicked s
        | some size =>
          if ¬ stride / 4 ≤ I32_MAX then .panicked s
          else if s.locked then .panicked s
          else
            .ok { s with
                  image := s.image.resize size,
                  image_info := { extent := extent, stride := stride, format := format } }

/-- Getter `SurfaceImpl::image_info`. -/
def SurfaceImpl.image_info' (s : SurfaceImpl) : ImageInfo := s.image_info

/-- Getter `SurfaceImpl::num_images`. -/
def SurfaceImpl.num_images (_s : SurfaceImpl) : Nat := 1

/-- Getter `SurfaceImpl::poll_next_image`. -/
def SurfaceImpl.poll_next_image (_s : SurfaceImpl) : Option Nat := some 0

/-- Operation `SurfaceImpl::lock_image(i)`: `assert_eq!(i, 0)` then
`image.borrow_mut()` (panics while another handle is alive).  Returns the
surface with the borrow flag set together with the length of the byte
slice the handle dereferences to (`&mut **p`, the buffer's whole region);
`none` models the panic. -/
def SurfaceImpl.lock_image (s : SurfaceImpl) (i : Nat) :
    Option (SurfaceImpl × Nat) :=
  if i ≠ 0 then none
  else if s.locked then none
  else some ({ s with locked := true }, s.image.size)

/-- Dropping the handle returned by `lock_image` releases the `RefCell`
borrow. -/
def SurfaceImpl.unlock (s : SurfaceImpl) : SurfaceImpl :=
  { s with locked := false }

/-- The arguments `present_image` hands to the native blit
(`BITMAPINFOHEADER` fields and the `StretchDIBits` extents,
`windows.rs` lines 110-143). -/
structure BlitCall where
  biWidth : Int
  biHeight : Int
  biPlanes : Nat
  biBitCount : Nat
  destWidth : Int
  destHeight : Int
  srcWidth : Int
  srcHeight : Int
deriving DecidableEq

/-- Operation `SurfaceImpl::present_image(i)`: `assert_eq!(i, 0)`, then
`image.try_borrow().expect(..)` (fails while a lock handle is alive), then
`assert_eq!(image_info.format, Format::Argb8888)`; only after all of that
does it acquire the drawing context and issue the blit.  `some b` is the
blit description handed to `StretchDIBits` (the native context acquisition
itself is external and assumed granted); `none` models a panic before any
context acquisition or blit. -/
def SurfaceImpl.present_image (s : SurfaceImpl) (i : Nat) : Option BlitCall :=
  if i ≠ 0 then none
  else if s.locked then none
  else if s.image_info.format ≠ Format.Argb8888 then none
  else
    some { biWidth := as_i32 (s.image_info.stride / 4)
         , biHeight := i32_wrap (-(as_i32 s.image_info.extent.2))
         , biPlanes := 1
         , biBitCount := 32
         , destWidth := as_i32 s.image_info.extent.1
         , destHeight := as_i32 s.image_info.extent.2
         , srcWidth := as_i32 s.image_info.extent.1
         , srcHeight := as_i32 s.image_info.extent.2 }

/-! ### Helper lemmas shared by the claim theorems -/

/-- A fresh surface with both alignments 1, as built by `SurfaceImpl.new`. -/
def surf1 : SurfaceImpl :=
  { image := ⟨1⟩, image_info := ImageInfo.default,
    scanline_align := ⟨1⟩, locked := false }

/-- State `surf1` after `update_surface([800, 600], Argb8888)`. -/
def surf800 : SurfaceImpl :=
  { image := ⟨1920000⟩,
    image_info := { extent := (800, 600), stride := 3200, format := Format.Argb8888 },
    scanline_align := ⟨1⟩, locked := false }

/-- State `surf1` while a `lock_image(0)` handle is alive. -/
def surf1L : SurfaceImpl :=
  { image := ⟨1⟩, image_info := ImageInfo.default,
    scanline_align := ⟨1⟩, locked := true }

/-- A fresh surface whose scanline alignment is `2^33`: large enough to
push the stride-in-pixels past `i32::MAX` without 64-bit overflow. -/
def surf33 : SurfaceImpl :=
  { image := ⟨1⟩, image_info := ImageInfo.default,
    scanline_align := ⟨8589934592⟩, locked := false }

/-- A surface whose current `ImageInfo` carries a format the backend
cannot present. -/
def surfX : SurfaceImpl :=
  { image := ⟨4⟩,
    image_info := { extent := (1, 1), stride := 4, format := Format.Xrgb8888 },
    scanline_align := ⟨1⟩, locked := false }

/-- The blit description `present_image` builds for `surf800`. -/
def blit800 : BlitCall :=
  { biWidth := 800, biHeight := -600, biPlanes := 1, biBitCount := 32,
    destWidth := 800, destHeight := 600, srcWidth := 800, srcHeight := 600 }

theorem checked_mul_eq_some (a b c : Nat) (h : checked_mul a b = some c) :
    c = a * b ∧ a * b < USIZE := by
  unfold checked_mul at h
  split at h
  · exact ⟨(Option.some.injEq _ _ ▸ h).symm, by assumption⟩
  · exact absurd h (by simp)

theorem checked_mul_of_lt (a b : Nat) (h : a * b < USIZE) :
    checked_mul a b = some (a * b) := by
  unfold checked_mul
  simp [h]

theorem align_up_eq_some (a : Align) (x y : Nat) (h : a.align_up x = some y) :
    y = (x + a.value - 1) / a.value * a.value := by
  unfold Align.align_up at h
  split at h
  · exact ((Option.some.injEq _ _).mp h).symm
  · exact absurd h (by simp)

theorem align_up_le (a : Align) (x y : Nat) (ha : 0 < a.value)
    (h : a.align_up x = some y) : x ≤ y := by
  have hy := align_up_eq_some a x y h
  have hdm : (x + a.value - 1) / a.value * a.value + (x + a.value - 1) % a.value
      = x + a.value - 1 := Nat.div_add_mod' _ _
  have hmlt : (x + a.value - 1) % a.value < a.value := Nat.mod_lt _ ha
  omega

theorem align_up_mod (a : Align) (x y : Nat) (h : a.align_up x = some y) :
    y % a.value = 0 := by
  have hy := align_up_eq_some a x y h
  subst hy
  exact Nat.mul_mod_left _ _

/-- Bound `extent.1 ≤ i32::MAX` keeps the `checked_mul 4` from overflowing. -/
theorem checked_mul_four (e : Nat) (hm : e ≤ I32_MAX) :
    checked_mul e 4 = some (e * 4) := by
  apply checked_mul_of_lt
  unfold I32_MAX at hm
  unfold USIZE
  omega

/-- When the stride-in-pixels check passes and the height is in range, the
size multiplication cannot overflow 64-bit `usize`. -/
theorem size_no_overflow (stride e2 : Nat) (hp : stride / 4 ≤ I32_MAX)
    (hm : e2 ≤ I32_MAX) : stride * e2 < USIZE := by
  unfold I32_MAX at hp hm
  unfold USIZE
  have h4 : stride ≤ 4 * (stride / 4) + 3 := by omega
  have hs : stride ≤ 4 * 2147483647 + 3 := by omega
  calc stride * e2 ≤ (4 * 2147483647 + 3) * 2147483647 :=
        Nat.mul_le_mul hs hm
    _ < 2 ^ 64 := by norm_num

/-- Complete characterization of a successful `update_surface` call. -/
theorem update_surface_ok_spec (s s' : SurfaceImpl) (extent : Nat × Nat)
    (format : Format) (h : s.update_surface extent format = .ok s') :
    ∃ x stride,
      checked_mul extent.1 4 = some x ∧
      s.scanline_align.align_up x = some stride ∧
      checked_mul stride extent.2 = some (stride * extent.2) ∧
      extent.1 ≠ 0 ∧ extent.2 ≠ 0 ∧
      extent.1 ≤ I32_MAX ∧ extent.2 ≤ I32_MAX ∧
      stride / 4 ≤ I32_MAX ∧ s.locked = false ∧
      s' = { s with
             image := ⟨stride * extent.2⟩,
             image_info := { extent := extent, stride := stride, format := format } } := by
  unfold SurfaceImpl.update_surface at h
  repeat' split at h
  all_goals try exact (UpdateResult.noConfusion h)
  rename_i h1 h2 h3 h4 o1 x hx o2 stride hs o3 size hsz h5 h6
  obtain ⟨rfl, -⟩ := checked_mul_eq_some _ _ _ hsz
  refine ⟨x, stride, hx, hs, hsz, by simpa using h1, by simpa using h2,
    by simpa using h3, by simpa using h4, by simpa using h5,
    by simpa using h6, ?_⟩
  have hrec := (UpdateResult.ok.injEq _ _).mp h
  simpa [Buffer.resize] using hrec.symm

/-- A successful `update_surface` run, assembled from the branch facts. -/
theorem update_surface_ok_intro (s : SurfaceImpl) (extent : Nat × Nat)
    (format : Format) (hl : s.locked = false)
    (h0 : extent.1 ≠ 0) (h1 : extent.2 ≠ 0)
    (hm0 : extent.1 ≤ I32_MAX) (hm1 : extent.2 ≤ I32_MAX)
    (x stride : Nat) (hx : checked_mul extent.1 4 = some x)
    (hs : s.scanline_align.align_up x = some stride)
    (hp : stride / 4 ≤ I32_MAX) :
    s.update_surface extent format =
      .ok { s with
            image := ⟨stride * extent.2⟩,
            image_info := { extent := extent, stride := stride, format := format } } := by
  have hsz : checked_mul stride extent.2 = some (stride * extent.2) :=
    checked_mul_of_lt _ _ (size_no_overflow stride extent.2 hp hm1)
  unfold SurfaceImpl.update_surface
  simp [h0, h1, hm0, hm1, hx, hs, hsz, hp, hl, Buffer.resize]

/-- A panicking `update_surface` call leaves the surface exactly as it
was: every panic point precedes the first mutation. -/
theorem update_surface_panicked_eq (s s' : SurfaceImpl) (extent : Nat × Nat)
    (format : Format) (h : s.update_surface extent format = .panicked s') :
    s' = s := by
  unfold SurfaceImpl.update_surface at h
  repeat' split at h
  all_goals simp_all

theorem lock_image_not_locked (s : SurfaceImpl) (hl : s.locked = false) :
    s.lock_image 0 = some ({ s with locked := true }, s.image.size) := by
  unfold SurfaceImpl.lock_image
  simp [hl]

theorem as_i32_of_le (x : Nat) (hx : x ≤ I32_MAX) : as_i32 x = (x : Int) := by
  unfold as_i32 i32_wrap
  unfold I32_MAX at hx
  have : ((x : Int)) % 2 ^ 32 = (x : Int) := by omega
  simp only [this]
  split
  · rfl
  · omega

theorem i32_wrap_neg_of_le (x : Nat) (hx : x ≤ I32_MAX) :
    i32_wrap (-(x : Int)) = -(x : Int) := by
  unfold i32_wrap
  unfold I32_MAX at hx
  have h0 : (0 : Int) ≤ (x : Int) := Int.ofNat_nonneg x
  split <;> omega

/-! ### Claim theorems -/

/-- Claim C1: `update_surface` never commits partially.  A call that fails
(panic on a zero or out-of-range extent, or on overflow in the stride,
stride-in-pixels, or size computation) leaves the stored `ImageInfo` and
the buffer size exactly as they were; a successful call commits both the
resized buffer and the new `ImageInfo {extent, stride, format}`. -/
theorem update_surface_atomic (s : SurfaceImpl) (extent : Nat × Nat)
    (format : Format) :
    (∀ s', s.update_surface extent format = .panicked s' →
        s'.image_info = s.image_info ∧ s'.image.size = s.image.size) ∧
    (∀ s', s.update_surface extent format = .ok s' →
        ∃ x stride, checked_mul extent.1 4 = some x ∧
          s.scanline_align.align_up x = some stride ∧
          s'.image_info = { extent := extent, stride := stride, format := format } ∧
          checked_mul stride extent.2 = some s'.image.size) := by
  constructor
  · intro s' h
    obtain rfl := update_surface_panicked_eq s s' extent format h
    exact ⟨rfl, rfl⟩
  · intro s' h
    obtain ⟨x, stride, hx, hs, hsz, -, -, -, -, -, -, rfl⟩ :=
      update_surface_ok_spec s s' extent format h
    exact ⟨x, stride, hx, hs, rfl, hsz⟩

/-- Witness for C1 at concrete inputs: a failing call on `surf1` (zero
width) and a successful call `surf1 → surf800`. -/
theorem update_surface_atomic_witness :
    (surf1.image_info = surf1.image_info ∧ surf1.image.size = surf1.image.size) ∧
    (∃ x stride, checked_mul 800 4 = some x ∧
      surf1.scanline_align.align_up x = some stride ∧
      surf800.image_info = { extent := (800, 600), stride := stride, format := Format.Argb8888 } ∧
      checked_mul stride 600 = some surf800.image.size) :=
  ⟨(update_surface_atomic surf1 (0, 600) Format.Argb8888).1 surf1 (by decide),
   (update_surface_atomic surf1 (800, 600) Format.Argb8888).2 surf800 (by decide)⟩

/-- Claim C2: for positive extents within the signed 32-bit ceiling whose
stride computation does not overflow and whose stride-in-pixels fits the
signed 32-bit range, `update_surface` succeeds (on an unlocked surface)
and the resulting `image_info()` has a stride that is a multiple of the
configured scanline alignment and at least `extent.1 * 4`. -/
theorem update_surface_stride_aligned (s : SurfaceImpl) (extent : Nat × Nat)
    (format : Format) (hl : s.locked = false)
    (h0 : 0 < extent.1) (h1 : 0 < extent.2)
    (hm0 : extent.1 ≤ I32_MAX) (hm1 : extent.2 ≤ I32_MAX)
    (ha : 0 < s.scanline_align.value)
    (stride : Nat) (hs : s.scanline_align.align_up (extent.1 * 4) = some stride)
    (hp : stride / 4 ≤ I32_MAX) :
    ∃ s', s.update_surface extent format = .ok s' ∧
      s'.image_info.stride % s.scanline_align.value = 0 ∧
      extent.1 * 4 ≤ s'.image_info.stride := by
  have hx := checked_mul_four extent.1 hm0
  have hok := update_surface_ok_intro s extent format hl (by omega) (by omega)
    hm0 hm1 (extent.1 * 4) stride hx hs hp
  refine ⟨_, hok, ?_, ?_⟩
  · simpa using align_up_mod _ _ _ hs
  · simpa using align_up_le _ _ _ ha hs

/-- Witness for C2 at `surf1` and extent `(800, 600)`. -/
theorem update_surface_stride_aligned_witness :
    ∃ s', surf1.update_surface (800, 600) Format.Argb8888 = .ok s' ∧
      s'.image_info.stride % surf1.scanline_align.value = 0 ∧
      800 * 4 ≤ s'.image_info.stride :=
  update_surface_stride_aligned surf1 (800, 600) Format.Argb8888 (by decide)
    (by decide) (by decide) (by decide) (by decide) (by decide)
    3200 (by decide) (by decide)

/-- Claim C3: when the computed stride divided by 4 (the stride in pixels)
exceeds `i32::MAX`, `update_surface` fails even though the address-sized
stride and size multiplications all succeeded (the hypotheses), and
`image_info()` afterwards returns exactly what it returned before. -/
theorem update_surface_pixel_ceiling (s : SurfaceImpl) (extent : Nat × Nat)
    (format : Format) (x stride size : Nat)
    (hx : checked_mul extent.1 4 = some x)
    (hs : s.scanline_align.align_up x = some stride)
    (hsz : checked_mul stride extent.2 = some size)
    (hp : I32_MAX < stride / 4) :
    s.update_surface extent format = .panicked s ∧
    (s.update_surface extent format).state.image_info = s.image_info := by
  have hpan : s.update_surface extent format = .panicked s := by
    cases hres : s.update_surface extent format with
    | panicked s' => rw [update_surface_panicked_eq s s' extent format hres]
    | ok s' =>
        exfalso
        obtain ⟨x', stride', hx', hs', -, -, -, -, -, hp', -, -⟩ :=
          update_surface_ok_spec s s' extent format hres
        injection hx.symm.trans hx' with hxx
        subst hxx
        injection hs.symm.trans hs' with hss
        subst hss
        omega
  exact ⟨hpan, by rw [hpan]; rfl⟩

/-- Witness for C3: scanline alignment `2^33` with extent `(1, 1)` gives
stride `2^33`, whose pixel width `2^31` exceeds `i32::MAX` while every
64-bit multiplication stays in range. -/
theorem update_surface_pixel_ceiling_witness :
    surf33.update_surface (1, 1) Format.Argb8888 = .panicked surf33 ∧
    (surf33.update_surface (1, 1) Format.Argb8888).state.image_info =
      surf33.image_info :=
  update_surface_pixel_ceiling surf33 (1, 1) Format.Argb8888 4 8589934592 8589934592
    (by decide) (by decide) (by decide) (by decide)

/-- Claim C4: while the handle returned by `lock_image(0)` is alive, a
second `lock_image(0)` and a `present_image(0)` both fail fatally; once
the handle is dropped, both succeed again (the surface's format being the
presentable `Argb8888`, as required for `present_image` to succeed at
all). -/
theorem lock_present_mutual_exclusion (s : SurfaceImpl) (hl : s.locked = false)
    (hf : s.image_info.format = Format.Argb8888) :
    ∃ g : SurfaceImpl × Nat,
      s.lock_image 0 = some g ∧
      g.1.lock_image 0 = none ∧
      g.1.present_image 0 = none ∧
      (g.1.unlock.lock_image 0).isSome = true ∧
      (g.1.unlock.present_image 0).isSome = true := by
  refine ⟨({ s with locked := true }, s.image.size), ?_, ?_, ?_, ?_, ?_⟩ <;>
    simp [SurfaceImpl.lock_image, SurfaceImpl.present_image, SurfaceImpl.unlock,
      hl, hf]

/-- Witness for C4 at the fresh surface `surf1`. -/
theorem lock_present_mutual_exclusion_witness :
    ∃ g : SurfaceImpl × Nat,
      surf1.lock_image 0 = some g ∧
      g.1.lock_image 0 = none ∧
      g.1.present_image 0 = none ∧
      (g.1.unlock.lock_image 0).isSome = true ∧
      (g.1.unlock.present_image 0).isSome = true :=
  lock_present_mutual_exclusion surf1 (by decide) (by decide)

/-- Claim C5: `update_surface` is idempotent: a second call with identical
arguments succeeds and leaves `image_info()` and the buffer size exactly
as after the first call. -/
theorem update_surface_idempotent (s s₁ : SurfaceImpl) (extent : Nat × Nat)
    (format : Format) (h : s.update_surface extent format = .ok s₁) :
    ∃ s₂, s₁.update_surface extent format = .ok s₂ ∧
      s₂.image_info = s₁.image_info ∧ s₂.image.size = s₁.image.size := by
  obtain ⟨x, stride, hx, hs, hsz, h0, h1, hm0, hm1, hp, hl, rfl⟩ :=
    update_surface_ok_spec s s₁ extent format h
  have hok := update_surface_ok_intro
    { s with
      image := ⟨stride * extent.2⟩,
      image_info := { extent := extent, stride := stride, format := format } }
    extent format hl h0 h1 hm0 hm1 x stride hx hs hp
  exact ⟨_, hok, rfl, rfl⟩

/-- Witness for C5: the second `update_surface([800, 600], Argb8888)` on
`surf800`. -/
theorem update_surface_idempotent_witness :
    ∃ s₂, surf800.update_surface (800, 600) Format.Argb8888 = .ok s₂ ∧
      s₂.image_info = surf800.image_info ∧ s₂.image.size = surf800.image.size :=
  update_surface_idempotent surf1 surf800 (800, 600) Format.Argb8888 (by decide)

/-- Claim C6: with scanline alignment 1, `update_surface([800, 600],
Argb8888)` on a fresh surface computes stride `align_up(800 * 4) = 3200`,
resizes the buffer to exactly 1,920,000 bytes, and `image_info()` then
returns `{extent := (800, 600), stride := 3200, format := Argb8888}`. -/
theorem update_surface_scenario_800x600 :
    SurfaceImpl.new { align := 1, scanline_align := 1 } = some surf1 ∧
    (⟨1⟩ : Align).align_up (800 * 4) = some 3200 ∧
    surf1.update_surface (800, 600) Format.Argb8888 = .ok surf800 ∧
    surf800.image_info =
      { extent := (800, 600), stride := 3200, format := Format.Argb8888 } ∧
    surf800.image.size = 1920000 := by
  decide

/-- Claim C7: a successful `present_image(0)` hands the native blit a
bitmap description whose height is the negated image height (declaring
the top-to-bottom rows as bottom-to-top) and whose width is `stride / 4`,
the row length in pixels.  The range hypotheses hold for every `ImageInfo`
a successful `update_surface` can store. -/
theorem present_image_blit_geometry (s : SurfaceImpl) (b : BlitCall)
    (hh : s.image_info.extent.2 ≤ I32_MAX)
    (hw : s.image_info.stride / 4 ≤ I32_MAX)
    (h : s.present_image 0 = some b) :
    b.biHeight = -((s.image_info.extent.2 : Nat) : Int) ∧
    b.biWidth = ((s.image_info.stride / 4 : Nat) : Int) := by
  unfold SurfaceImpl.present_image at h
  repeat' split at h
  all_goals try exact (Option.noConfusion h)
  obtain rfl := (Option.some.injEq _ _).mp h
  constructor
  · simp [as_i32_of_le _ hh, i32_wrap_neg_of_le _ hh]
  · simp [as_i32_of_le _ hw]

/-- Witness for C7 at `surf800`: the blit carries height `-600` and
width `800`. -/
theorem present_image_blit_geometry_witness :
    blit800.biHeight = -((surf800.image_info.extent.2 : Nat) : Int) ∧
    blit800.biWidth = ((surf800.image_info.stride / 4 : Nat) : Int) :=
  present_image_blit_geometry surf800 blit800 (by decide) (by decide) (by decide)

/-- Counterexample to claim C8 as stated: on a freshly constructed surface
(on which `update_surface` has never been called) the locked byte slice is
the 1-byte placeholder buffer, while the default `ImageInfo` implies a
size of `stride * extent[1] = 0`. -/
theorem lock_image_fresh_length_counterexample :
    SurfaceImpl.new { align := 1, scanline_align := 1 } = some surf1 ∧
    (surf1.lock_image 0).map Prod.snd = some 1 ∧
    surf1.image_info.stride * surf1.image_info.extent.2 = 0 ∧
    (surf1.lock_image 0).map Prod.snd ≠
      some (surf1.image_info.stride * surf1.image_info.extent.2) := by
  decide

/-- Claim C8 (amended): after any successful `update_surface`, the byte
slice obtained from `lock_image(0)` has length equal to
`stride * extent[1]` of the current `ImageInfo`.  (On a freshly
constructed surface the slice instead has the placeholder length 1.) -/
theorem lock_image_slice_length (s s' : SurfaceImpl) (extent : Nat × Nat)
    (format : Format) (g : SurfaceImpl × Nat)
    (h : s.update_surface extent format = .ok s')
    (hg : s'.lock_image 0 = some g) :
    g.2 = s'.image_info.stride * s'.image_info.extent.2 := by
  obtain ⟨x, stride, -, -, -, -, -, -, -, -, hl, rfl⟩ :=
    update_surface_ok_spec s s' extent format h
  unfold SurfaceImpl.lock_image at hg
  simp [hl] at hg
  obtain rfl := hg.symm
  rfl

/-- Witness for the amended C8: locking `surf800` yields a slice of
1,920,000 bytes, which is `3200 * 600`. -/
theorem lock_image_slice_length_witness :
    (1920000 : Nat) = surf800.image_info.stride * surf800.image_info.extent.2 :=
  lock_image_slice_length surf1 surf800 (800, 600) Format.Argb8888
    ({ surf800 with locked := true }, 1920000) (by decide) (by decide)

/-- Claim C9: while a `lock_image(0)` handle is alive, `update_surface`
fails fatally even on arguments that would otherwise succeed, leaving the
surface untouched; after the handle is dropped the same call succeeds. -/
theorem update_surface_locked_fatal (s : SurfaceImpl) (extent : Nat × Nat)
    (format : Format) (hl : s.locked = true)
    (h0 : extent.1 ≠ 0) (h1 : extent.2 ≠ 0)
    (hm0 : extent.1 ≤ I32_MAX) (hm1 : extent.2 ≤ I32_MAX)
    (x stride : Nat) (hx : checked_mul extent.1 4 = some x)
    (hs : s.scanline_align.align_up x = some stride)
    (hp : stride / 4 ≤ I32_MAX) :
    s.update_surface extent format = .panicked s ∧
    ∃ s', s.unlock.update_surface extent format = .ok s' := by
  constructor
  · have hsz := checked_mul_of_lt _ _ (size_no_overflow stride extent.2 hp hm1)
    unfold SurfaceImpl.update_surface
    simp [h0, h1, hm0, hm1, hx, hs, hsz, hp, hl]
  · exact ⟨_, update_surface_ok_intro s.unlock extent format rfl h0 h1 hm0 hm1
      x stride hx hs hp⟩

/-- Witness for C9: `surf1` with a live lock handle rejects
`update_surface([800, 600], Argb8888)`; after the drop it succeeds. -/
theorem update_surface_locked_fatal_witness :
    surf1L.update_surface (800, 600) Format.Argb8888 = .panicked surf1L ∧
    ∃ s', surf1L.unlock.update_surface (800, 600) Format.Argb8888 = .ok s' :=
  update_surface_locked_fatal surf1L (800, 600) Format.Argb8888 (by decide)
    (by decide) (by decide) (by decide) (by decide) 3200 3200
    (by decide) (by decide) (by decide)

/-- Claim C10: `present_image(0)` fails fatally whenever the current
`ImageInfo`'s format is not `Argb8888`; the result is `none`, i.e. no
blit description is ever built and no drawing context acquired. -/
theorem present_image_rejects_non_argb (s : SurfaceImpl)
    (h : s.image_info.format ≠ Format.Argb8888) :
    s.present_image 0 = none := by
  unfold SurfaceImpl.present_image
  simp [h]

/-- Witness for C10: a surface tagged `Xrgb8888` cannot present. -/
theorem present_image_rejects_non_argb_witness :
    surfX.present_image 0 = none :=
  present_image_rejects_non_argb surfX (by decide)

end Swsurface
